import Mathlib

/-!
Verification of the libteal process-pipeline engine (src/libteal/pipeline.py
and src/libteal/subpipe.py) and the data-size parser (src/libteal/size.py),
as a shallow embedding in Lean.

The pipeline code spawns external OS processes.  The embedding replaces the
operating system by an explicit oracle: each command records whether its
Popen call would succeed (`spawnOk`, i.e. the executable exists, permissions
are fine, the working directory is valid) and the exit code the process
eventually exits with.  A spawned process is a `Subproc` record holding
exactly the facts the library reads back from a Popen handle: its pid, what
its standard input was connected to, whether it has exited yet, its exit
code, and the signals that have been delivered to it.  Details that no claim
touches (stream byte contents, text mode, uid/gid/umask) are not modelled.
-/

namespace Teal

/-- Stream values as used by the pipe dictionaries of pipeline.py:35-39 and
subpipe.py:36-40: Python None (inherit), subprocess.PIPE, subprocess.STDOUT,
subprocess.DEVNULL, or a concrete file object / descriptor. -/
inductive StreamVal where
  | pyNone
  | pipe
  | stdout
  | devnull
  | handle (h : Nat)
deriving DecidableEq

/-- A pipe dictionary (pipeline.py:35-39, subpipe.py:36-40): the stdout and
stderr stream values for this command plus which stream (1 = stdout,
2 = stderr) feeds the next command. -/
structure PipeSpec where
  stdoutV : StreamVal
  stderrV : StreamVal
  stream : Nat
deriving DecidableEq

def PIPE_STDOUT : PipeSpec := ⟨StreamVal.pipe, StreamVal.pyNone, 1⟩

def PIPE_STDERR : PipeSpec := ⟨StreamVal.pyNone, StreamVal.pipe, 2⟩

def PIPE_BOTH : PipeSpec := ⟨StreamVal.pipe, StreamVal.stdout, 1⟩

def PIPE_STDOUT_QUIET : PipeSpec := ⟨StreamVal.pipe, StreamVal.devnull, 1⟩

def PIPE_STDERR_QUIET : PipeSpec := ⟨StreamVal.devnull, StreamVal.pipe, 2⟩

/-- Source a spawned process reads its standard input from: Python None
(inherit the parent console), the temporary file pre-loaded with indata
(pipeline.py:114-123, subpipe.py:126-136), or the retained read end of the
stdout / stderr pipe of the subprocess with the given pid. -/
inductive StdinSrc where
  | pyNone
  | tempFile
  | fromStdout (pid : Nat)
  | fromStderr (pid : Nat)
deriving DecidableEq

/-- Oracle for the OS behaviour of one command: whether Popen succeeds for
it, and the exit code the process eventually exits with. -/
structure ProcSpec where
  spawnOk : Bool
  exitCode : Int
deriving DecidableEq

/-- One spawned OS process as visible through its Popen handle. `exited`
says whether the process has exited at the current observation instant
(Popen.poll() returns None exactly while `exited` is false); `exitCode` is
the code it (eventually) exits with; `signals` lists the signals actually
delivered to the process, in order. -/
structure Subproc where
  pid : Nat
  stdinSrc : StdinSrc
  exited : Bool
  exitCode : Int
  signals : List Nat
deriving DecidableEq

/-- Popen.returncode: None while the process has not exited. -/
def Subproc.returncode (sp : Subproc) : Option Int :=
  if sp.exited then some sp.exitCode else none

/-- Popen.send_signal(sig): the signal is delivered only if the process has
not completed ("Do nothing if the process completed"); delivering to an
already exited process is silently skipped, never an error. -/
def Subproc.send_signal (sig : Nat) (sp : Subproc) : Subproc :=
  if sp.exited then sp else { sp with signals := sp.signals ++ [sig] }

/-- One pipeline stage, modelling the Command record of pipeline.py:43 and
the SubCommand of subpipe.py:45: argument vector, the stdout/stderr stream
values taken from the pipe dictionary on append, the stream tag, the OS
oracle for this command, and the Popen handle once spawned.  The two classes
populate the stream tag differently: pipeline.py's append copies the pipe
dictionary's stream entry into it (pipeline.py:196, see `pipeline.append`),
while subpipe.py's append never passes it, so a SubCommand always keeps the
constructor default 0 (subpipe.py:47 and 237, see `subpipe.append`). -/
structure Command where
  command : List String
  stdoutV : StreamVal
  stderrV : StreamVal
  stream : Nat
  proc : ProcSpec
  subproc : Option Subproc
deriving DecidableEq

/-- Events observable during the spawn loop: spawning stage `idx` with the
given standard-input source, and closing the parent copy of the pipe end of
the previously spawned subprocess `ppid` (its stream 1 = stdout or
2 = stderr). -/
inductive Event where
  | spawn (idx : Nat) (stdin : StdinSrc)
  | closeEnd (ppid : Nat) (stream : Nat)
deriving DecidableEq

/-- Index of a spawn event, for extracting the spawn order of a trace. -/
def spawnIdx (e : Event) : Option Nat :=
  match e with
  | Event.spawn i _ => some i
  | Event.closeEnd _ _ => none

/-- Standard input handed to the next stage, read off the previous stage
(pipeline.py:210-215, subpipe.py:150-155): `prev_command.subproc.stderr` if
the previous stream is 2, else `prev_command.subproc.stdout`.  Popen only
materialises the `.stdout` / `.stderr` attribute as a pipe object when PIPE
was passed for that stream; otherwise the attribute is Python None and the
next stage inherits the parent console. -/
def forwardedHandle (ppid : Nat) (pc : Command) : StdinSrc :=
  if pc.stream == 2 then
    if pc.stderrV == StreamVal.pipe then StdinSrc.fromStderr ppid else StdinSrc.pyNone
  else
    if pc.stdoutV == StreamVal.pipe then StdinSrc.fromStdout ppid else StdinSrc.pyNone

/-- The forwarded stream of a command resolves to an OS pipe, as is the case
for every one of the five pipe dictionaries the library ships. -/
def fwdIsPipe (c : Command) : Prop :=
  (if c.stream == 2 then c.stderrV else c.stdoutV) = StreamVal.pipe

instance (c : Command) : Decidable (fwdIsPipe c) := by
  unfold fwdIsPipe
  infer_instance

/-- Popen succeeding for a command: a fresh subprocess record with the given
pid, connected to the given standard input, not yet exited, destined to exit
with the oracle exit code, with no signal delivered yet. -/
def spawnCmd (pid : Nat) (stdin : StdinSrc) (c : Command) : Command :=
  { c with subproc := some ⟨pid, stdin, false, c.proc.exitCode, []⟩ }

/-- Result of running the spawn loop: the updated command list, the ordered
event trace, the index of the command whose Popen raised (None when all
spawns succeeded), and the next free pid. -/
structure SeqOut where
  commands : List Command
  events : List Event
  failedAt : Option Nat
  nextPid : Nat
deriving DecidableEq

/-- The spawn loop of Pipeline.launch (pipeline.py:205-232): process the
commands strictly in order; for each command compute its stdin (the pipeline
stdin for the first command, otherwise the retained end of the previous
command's forwarded stream), call Popen, and only after the Popen call close
the parent copy of the previous command's forwarded pipe end.  If Popen
raises (spawnOk false), the exception propagates immediately: no already
spawned stage is terminated, no further command is touched, and the pending
close does not happen.  The close is recorded as an event labelled with the
previous command's stream tag; in pipeline.py the closed attribute exists
whenever the previous command's forwarded stream is a pipe card, which holds
for all five shipped pipe dictionaries since append keeps the stream tag.
PipeThread.run (subpipe.py:145-170) contains the same loop text, but it runs
over SubCommands whose stream tag is always 0 and its close step can raise
AttributeError on a missing handle; it is modelled separately by
`subpipe.runSeq`. -/
def launchSeq (idx pid : Nat) (src0 : StdinSrc) (prev : Option (Nat × Command)) :
    List Command → SeqOut
  | [] => ⟨[], [], none, pid⟩
  | c :: rest =>
    let stdin := match prev with
      | none => src0
      | some (ppid, pc) => forwardedHandle ppid pc
    if c.proc.spawnOk then
      let c' := spawnCmd pid stdin c
      let closes : List Event := match prev with
        | none => []
        | some (ppid, pc) => [Event.closeEnd ppid pc.stream]
      let out := launchSeq (idx + 1) (pid + 1) src0 (some (pid, c')) rest
      ⟨c' :: out.commands, (Event.spawn idx stdin :: closes) ++ out.events,
        out.failedAt, out.nextPid⟩
    else
      ⟨c :: rest, [], some idx, pid⟩

/-- Broadcast of a signal over the stages, shared by
Pipeline.send_signal of pipeline.py:286-293 and of subpipe.py:288-292:
`for item in commands: if item.subproc: item.subproc.send_signal(sig)`.
Stages without a subprocess are skipped by the `if`; stages whose process
already exited are skipped inside Popen.send_signal.  The loop is total:
no stage can make the broadcast fail. -/
def broadcastSignal (sig : Nat) (cmds : List Command) : List Command :=
  cmds.map fun c =>
    match c.subproc with
    | some sp => { c with subproc := some (Subproc.send_signal sig sp) }
    | none => c

namespace pipeline

/-- The Pipeline object of pipeline.py:62: the resolved pipeline-level
stdout / stderr stream values, the resolved standard input for the first
command (None, or the temporary file pre-loaded with indata,
pipeline.py:113-123), the appended commands, and the next pid the OS would
hand out (modelling pid freshness). -/
structure Pipeline where
  stdoutV : StreamVal
  stderrV : StreamVal
  stdin : StdinSrc
  commands : List Command
  nextPid : Nat
deriving DecidableEq

/-- Assignment `self.commands[-1].stdout = self.stdout;
self.commands[-1].stderr = self.stderr` performed by Pipeline.launch
(pipeline.py:202-203): the last command's streams are replaced by the
pipeline-level ones. -/
def setLastStreams (o e : StreamVal) : List Command → List Command
  | [] => []
  | [c] => [{ c with stdoutV := o, stderrV := e }]
  | c :: c2 :: rest => c :: setLastStreams o e (c2 :: rest)

/-- Result of Pipeline.launch: the pipeline object after the call (Python
mutations persist even when an exception propagates), the spawn/close event
trace, and the index of the command whose Popen raised, if any. -/
structure LaunchOut where
  pipeline : Pipeline
  events : List Event
  failedAt : Option Nat
deriving DecidableEq

/-- Pipeline.launch (pipeline.py:200-234): with no appended command the
whole body is skipped; otherwise the last command's streams are replaced by
the pipeline-level ones and the spawn loop runs over the commands. -/
def launch (p : Pipeline) : LaunchOut :=
  if p.commands.isEmpty then ⟨p, [], none⟩
  else
    let cmds := setLastStreams p.stdoutV p.stderrV p.commands
    let out := launchSeq 0 p.nextPid p.stdin none cmds
    ⟨{ p with commands := out.commands, nextPid := out.nextPid }, out.events, out.failedAt⟩

/-- Pipeline.is_running (pipeline.py:235-248): true iff some command has a
subprocess whose poll() is None, i.e. a spawned process that has not yet
exited.  The Python loop breaks at the first hit; `List.any` has the same
value. -/
def is_running (p : Pipeline) : Bool :=
  p.commands.any fun c =>
    match c.subproc with
    | some sp => !sp.exited
    | none => false

/-- Entries of the list returned by Pipeline.poll (pipeline.py:249-266):
Python False when the subprocess has not been created, Python None while it
is still running, and its return code once it has finished. -/
inductive PollEntry where
  | pyFalse
  | pyNone
  | code (c : Int)
deriving DecidableEq

/-- Pipeline.poll (pipeline.py:249-266): one entry per command; False if no
subprocess, else Popen.poll() (None while running, the return code after
exit). -/
def poll (p : Pipeline) : List PollEntry :=
  p.commands.map fun c =>
    match c.subproc with
    | some sp => if sp.exited then PollEntry.code sp.exitCode else PollEntry.pyNone
    | none => PollEntry.pyFalse

/-- Entries of the list returned by Pipeline.wait (pipeline.py:267-285):
Python False when the subprocess was never created, else the return code the
process exits with. -/
inductive WaitEntry where
  | pyFalse
  | code (c : Int)
deriving DecidableEq

/-- Pipeline.wait called with timeout=None (pipeline.py:267-285): one entry
per command, in command order; False if the subprocess has not been created,
otherwise Popen.wait() blocks until the process exits and yields its exit
code.  The timeout branch (Popen.wait(timeout) raising TimeoutExpired) is
not needed by the claims about this class. -/
def wait (p : Pipeline) : List WaitEntry :=
  p.commands.map fun c =>
    match c.subproc with
    | some sp => WaitEntry.code sp.exitCode
    | none => WaitEntry.pyFalse

/-- Pipeline.send_signal (pipeline.py:286-293). -/
def send_signal (sig : Nat) (p : Pipeline) : Pipeline :=
  { p with commands := broadcastSignal sig p.commands }

/-- Signal numbers on the platform the library targets (Linux). -/
def SIGTERM : Nat := 15

/-- SIGKILL signal number. -/
def SIGKILL : Nat := 9

/-- Pipeline.terminate (pipeline.py:294-299): send_signal(SIGTERM). -/
def terminate (p : Pipeline) : Pipeline := send_signal SIGTERM p

/-- Pipeline.kill (pipeline.py:300-305): send_signal(SIGKILL). -/
def kill (p : Pipeline) : Pipeline := send_signal SIGKILL p

end pipeline

namespace subpipe

/-- The worker thread of subpipe.py: alive for the given number of abstract
time units (one unit per busy-wait loop iteration of Pipeline.wait); Python
Thread.is_alive() is true exactly while `aliveFor` is positive. -/
structure Thread where
  aliveFor : Nat
deriving DecidableEq

/-- The Pipeline object of subpipe.py:183: the appended commands, the
optional worker thread created by launch, the captured output and error data
filled in by PipeThread.run via communicate, and the resolved standard input
of the first command. -/
structure Pipeline where
  commands : List Command
  thread : Option Thread
  output : Option String
  error : Option String
  stdin : StdinSrc
  nextPid : Nat
deriving DecidableEq

/-- Pipeline.launch (subpipe.py:240-245): with no appended command nothing
happens; otherwise a PipeThread is created and started.  The duration the
thread will stay alive is an oracle parameter (it depends on how long the
subprocesses run). -/
def launch (p : Pipeline) (dur : Nat) : Pipeline :=
  if p.commands.isEmpty then p else { p with thread := some ⟨dur⟩ }

/-- Pipeline.is_running (subpipe.py:246-255): true iff the thread exists and
Thread.is_alive() is true.  Note that this queries the worker thread, not
the per-stage process handles. -/
def is_running (p : Pipeline) : Bool :=
  match p.thread with
  | some th => 0 < th.aliveFor
  | none => false

/-- Exceptions the embedded subpipe code can raise. -/
inductive PyExc where
  | timeoutExpired
  | nameError (n : String)
  | indexError
deriving DecidableEq

/-- Names bound at module scope in subpipe.py: the import statements at
subpipe.py:27-33 and the top-level definitions.  `TimeoutExpired` is not
among them (only Popen, DEVNULL, PIPE and STDOUT are imported from the
subprocess module), and it is not a Python builtin either. -/
def moduleNames : List String :=
  ["os", "shlex", "tempfile", "threading", "time",
   "Popen", "DEVNULL", "PIPE", "STDOUT",
   "PIPE_STDOUT", "PIPE_STDERR", "PIPE_BOTH", "PIPE_STDOUT_QUIET",
   "PIPE_STDERR_QUIET", "SLEEP_TIME", "SubCommand", "PipeThread",
   "Pipeline", "subpipe"]

/-- Evaluation of `raise TimeoutExpired()` at subpipe.py:271: the name
`TimeoutExpired` is looked up in the module scope (and the builtins, which
do not define it); if unbound, Python raises NameError instead. -/
def raiseTimeout : PyExc :=
  if "TimeoutExpired" ∈ moduleNames then PyExc.timeoutExpired
  else PyExc.nameError "TimeoutExpired"

/-- Busy-wait loop of Pipeline.wait (subpipe.py:266-280), over abstract time:
`remaining` is how many more time units the thread stays alive (is_running
is true exactly while remaining is positive) and `t` is the elapsed time
since the wait started.  While running: if a timeout is set and the elapsed
time has reached it, raise; otherwise sleep one unit and loop. -/
def waitLoop : Nat → Nat → Option Nat → Except PyExc Unit
  | 0, _, _ => Except.ok ()
  | remaining + 1, t, timeout =>
    match timeout with
    | some tmo =>
      if tmo ≤ t then Except.error raiseTimeout
      else waitLoop remaining (t + 1) (some tmo)
    | none => waitLoop remaining (t + 1) none

/-- Time units the worker thread of `p` still stays alive. -/
def aliveSteps (p : Pipeline) : Nat :=
  match p.thread with
  | some th => th.aliveFor
  | none => 0

/-- Pipeline.wait (subpipe.py:257-287): busy-wait until the thread finishes
or the timeout elapses (raising, see `raiseTimeout`); then return the
3-tuple (returncode of the last command's subprocess — Python None if it was
never created —, captured output, captured error).  `self.commands[-1]` on an
empty command list raises IndexError.  The wait performs no signal delivery
and leaves the pipeline object untouched. -/
def wait (p : Pipeline) (timeout : Option Nat) :
    Except PyExc (Option Int × Option String × Option String) :=
  match waitLoop (aliveSteps p) 0 timeout with
  | Except.error e => Except.error e
  | Except.ok () =>
    match p.commands.getLast? with
    | none => Except.error PyExc.indexError
    | some c =>
      let code := match c.subproc with
        | some sp => sp.returncode
        | none => none
      Except.ok (code, p.output, p.error)

/-- Pipeline.send_signal (subpipe.py:288-292); Pipeline.terminate and
Pipeline.kill (subpipe.py:293-302) call Popen.terminate / Popen.kill on each
created subprocess, which are Popen.send_signal with SIGTERM / SIGKILL. -/
def send_signal (sig : Nat) (p : Pipeline) : Pipeline :=
  { p with commands := broadcastSignal sig p.commands }

end subpipe

namespace size

/-- BYTES unit constant (size.py:50). -/
def BYTES : Nat := 1

/-- BITS unit constant (size.py:51). -/
def BITS : Nat := 8

/-- IEC binary prefixes and their base-2 exponents (size.py:28-37). -/
def IEC : List (List Char × Nat) :=
  [(['K', 'i'], 10), (['M', 'i'], 20), (['G', 'i'], 30), (['T', 'i'], 40),
   (['P', 'i'], 50), (['E', 'i'], 60), (['Z', 'i'], 70), (['Y', 'i'], 80)]

/-- SI decimal prefixes and their base-10 exponents (size.py:39-48). -/
def SI : List (List Char × Nat) :=
  [(['k'], 3), (['M'], 6), (['G'], 9), (['T'], 12),
   (['P'], 15), (['E'], 18), (['Z'], 21), (['Y'], 24)]

/-- Python str.isspace for the ASCII range. -/
def isSpaceChar (c : Char) : Bool :=
  c == ' ' || c == '\t' || c == '\n' || c == '\r' || c == '\x0b' || c == '\x0c'

/-- Accumulation loop of DataSize.parse_size (size.py:78-96), with the
character-class predicates modelled for the ASCII range: while no suffix has
started, digits go to the accumulator; after at least one digit, a first
decimal point also goes to the accumulator, whitespace is skipped, and any
other non-digit character starts the suffix; once the suffix has started,
alphabetic characters extend it and anything else ends the scan (the Python
`break`).  Returns (accumulator, suffix). -/
def scanChars : List Char → List Char → Bool → List Char → List Char × List Char
  | [], acc, _, pfx => (acc, pfx)
  | ch :: rest, acc, dp, pfx =>
    if pfx.isEmpty then
      if ch.isDigit then scanChars rest (acc ++ [ch]) dp pfx
      else if acc.length > 0 then
        if ch == '.' && !dp then scanChars rest (acc ++ [ch]) true pfx
        else if !isSpaceChar ch then scanChars rest acc dp [ch]
        else scanChars rest acc dp pfx
      else scanChars rest acc dp pfx
    else
      if ch.isAlpha then scanChars rest acc dp (pfx ++ [ch])
      else (acc, pfx)

/-- Bytes/bits check of size.py:98-106: when the suffix is nonempty and ends
in a lowercase b, the quantity is in bits and the b is stripped; a trailing
uppercase B or an o (octets) is stripped with the quantity staying in bytes.
Returns (remaining suffix, unit). -/
def stripUnit (pfx : List Char) : List Char × Nat :=
  match pfx.getLast? with
  | some c =>
    if c == 'b' then (pfx.dropLast, BITS)
    else if c == 'B' || c == 'o' then (pfx.dropLast, BYTES)
    else (pfx, BYTES)
  | none => (pfx, BYTES)

/-- Special hack of size.py:108-113: a bare capital K is replaced by Ki. -/
def khack (pfx : List Char) : List Char :=
  if pfx == ['K'] then ['K', 'i'] else pfx

/-- Numeric value of one decimal digit. -/
def digitVal (c : Char) : Nat := c.toNat - Char.toNat '0'

/-- Python float(accumulator) for an accumulator of decimal digits with at
most one decimal point, represented exactly: the pair (num, frac) stands for
the nonnegative decimal value num / 10 ^ frac, where frac is the number of
digits after the decimal point.  Exact decimal arithmetic replaces IEEE
doubles; none of the claims depends on binary rounding. -/
def decVal (acc : List Char) : Nat × Nat :=
  let intPart := acc.takeWhile fun c => c != '.'
  let fracPart := (acc.dropWhile fun c => c != '.').drop 1
  let iv : Nat := intPart.foldl (fun n c => 10 * n + digitVal c) 0
  let fv : Nat := fracPart.foldl (fun n c => 10 * n + digitVal c) 0
  (iv * 10 ^ fracPart.length + fv, fracPart.length)

/-- Prefix multiplier of size.py:120-124: an IEC prefix scales the value by
a power of two, an SI prefix by a power of ten, anything else leaves the
value alone.  Scaling by an integer multiplies the numerator. -/
def applyMult (pfx : List Char) (v : Nat × Nat) : Nat × Nat :=
  match IEC.lookup pfx with
  | some e => (v.1 * 2 ^ e, v.2)
  | none =>
    match SI.lookup pfx with
    | some e => (v.1 * 10 ^ e, v.2)
    | none => v

/-- Python int() applied to the value num / 10 ^ frac: truncation toward
zero, which on these nonnegative values is the floor, i.e. natural number
division. -/
def pyInt (v : Nat × Nat) : Nat := v.1 / 10 ^ v.2

/-- Bit workaround of size.py:128-136: when the unit is BITS, divide by 8
and add one byte when there is a remainder (Python floor division and
modulo, which on nonnegative operands agree with Nat division). -/
def bitsAdjust (unit : Nat) (n : Nat) : Nat :=
  if unit == BITS then
    let total := n / 8
    if n % 8 != 0 then total + 1 else total
  else n

/-- The DataSize object (size.py:54-61): its current size in bytes. -/
structure DataSize where
  size : Int
deriving DecidableEq

/-- DataSize.parse_size (size.py:63-138): scan the string, strip the
bytes/bits marker off the suffix, apply the bare-K hack, convert the
accumulated number, apply the prefix multiplier, truncate to an integer, and
convert bits to bytes rounding up.  Returns the value returned by the method
together with the object after the call (whose size field the method set). -/
def parse_size (d : DataSize) (s : List Char) : Int × DataSize :=
  let scanned := scanChars s [] false []
  let su := stripUnit scanned.2
  let pfx := khack su.1
  let base : Nat × Nat := if scanned.1.length > 0 then decVal scanned.1 else (0, 0)
  let m : Nat := pyInt (applyMult pfx base)
  let final : Int := (bitsAdjust su.2 m : Nat)
  (final, { d with size := final })

end size

/-!
Helper lemmas shared by the claim theorems.
-/

theorem broadcastSignal_getElem (sig : Nat) (cmds : List Command) (i : Nat) (c : Command)
    (hc : cmds[i]? = some c) :
    (broadcastSignal sig cmds)[i]? =
      some (match c.subproc with
        | some sp => { c with subproc := some (Subproc.send_signal sig sp) }
        | none => c) := by
  unfold broadcastSignal
  rw [List.getElem?_map, hc, Option.map_some']

theorem poll_getElem (p : pipeline.Pipeline) (i : Nat) (c : Command)
    (hc : p.commands[i]? = some c) :
    (pipeline.poll p)[i]? =
      some (match c.subproc with
        | some sp => if sp.exited then pipeline.PollEntry.code sp.exitCode
                     else pipeline.PollEntry.pyNone
        | none => pipeline.PollEntry.pyFalse) := by
  unfold pipeline.poll
  rw [List.getElem?_map, hc, Option.map_some']

theorem wait_getElem (p : pipeline.Pipeline) (i : Nat) (c : Command)
    (hc : p.commands[i]? = some c) :
    (pipeline.wait p)[i]? =
      some (match c.subproc with
        | some sp => pipeline.WaitEntry.code sp.exitCode
        | none => pipeline.WaitEntry.pyFalse) := by
  unfold pipeline.wait
  rw [List.getElem?_map, hc, Option.map_some']

/-!
Concrete stages and pipelines used by witnesses and counterexamples.
-/

/-- A stage that has not been spawned yet. -/
def exCmdUnspawned : Command :=
  ⟨["sleep", "10"], StreamVal.pipe, StreamVal.pyNone, 1, ⟨true, 0⟩, none⟩

/-- A spawned stage that is still running. -/
def exCmdRunning : Command :=
  ⟨["sleep", "10"], StreamVal.pipe, StreamVal.pyNone, 1, ⟨true, 0⟩,
    some ⟨0, StdinSrc.pyNone, false, 0, []⟩⟩

/-- A spawned stage that has already exited with code 4. -/
def exCmdExited : Command :=
  ⟨["true"], StreamVal.pipe, StreamVal.pyNone, 1, ⟨true, 4⟩,
    some ⟨1, StdinSrc.pyNone, true, 4, []⟩⟩

/-- A pipeline.py Pipeline with one unspawned, one running and one exited
stage. -/
def exMixedPipeline : pipeline.Pipeline :=
  ⟨StreamVal.pyNone, StreamVal.pyNone, StdinSrc.pyNone,
    [exCmdUnspawned, exCmdRunning, exCmdExited], 2⟩

/-!
C9.  For every pipeline with zero appended commands, launch() is a no-op.
-/

/-- C9: for a pipeline with zero appended commands, launch() returns
normally, spawns no process, creates no background task, and leaves every
field of the pipeline unchanged — in pipeline.py the whole body of launch is
guarded by `if len(self.commands) > 0`, and in subpipe.py launch creates and
starts the worker thread only under the same guard. -/
theorem C9_launch_empty_noop :
    (∀ p : pipeline.Pipeline, p.commands = [] →
      pipeline.launch p = ⟨p, [], none⟩) ∧
    (∀ (q : subpipe.Pipeline) (dur : Nat), q.commands = [] →
      subpipe.launch q dur = q) := by
  constructor
  · intro p h
    simp [pipeline.launch, h]
  · intro q dur h
    simp [subpipe.launch, h]

/-- Witness for C9 at concrete empty pipelines. -/
theorem C9_launch_empty_noop_witness :
    pipeline.launch ⟨StreamVal.pyNone, StreamVal.pyNone, StdinSrc.pyNone, [], 0⟩ =
      ⟨⟨StreamVal.pyNone, StreamVal.pyNone, StdinSrc.pyNone, [], 0⟩, [], none⟩ ∧
    subpipe.launch ⟨[], none, none, none, StdinSrc.pyNone, 0⟩ 5 =
      ⟨[], none, none, none, StdinSrc.pyNone, 0⟩ :=
  ⟨C9_launch_empty_noop.1 _ rfl, C9_launch_empty_noop.2 _ 5 rfl⟩

/-!
C5.  poll(): one entry per stage; the claim says the entry is None both for
an unspawned stage and for a stage that has not exited.  The code
(pipeline.py:249-266, including its own docstring) instead returns False for
a stage whose subprocess has not been created and None only for a spawned
stage that has not exited.
-/

/-- C5 counterexample: a pipeline with a single unspawned stage.  poll()
returns [False], not [None], refuting "an entry is None (absent) whenever
that stage has not yet been spawned". -/
theorem C5_poll_counterexample :
    pipeline.poll ⟨StreamVal.pyNone, StreamVal.pyNone, StdinSrc.pyNone,
        [exCmdUnspawned], 0⟩ = [pipeline.PollEntry.pyFalse] ∧
    pipeline.PollEntry.pyFalse ≠ pipeline.PollEntry.pyNone := by
  exact ⟨rfl, by decide⟩

/-- C5 amended: poll() returns one entry per stage and never blocks (it is a
pure reading of the stage handles); the entry is False when the stage has
not been spawned, None when it was spawned and has not exited, and the exit
code once it has exited. -/
theorem C5_poll_entries (p : pipeline.Pipeline) (i : Nat) (c : Command)
    (hc : p.commands[i]? = some c) :
    (pipeline.poll p).length = p.commands.length ∧
    (c.subproc = none → (pipeline.poll p)[i]? = some pipeline.PollEntry.pyFalse) ∧
    (∀ sp, c.subproc = some sp → sp.exited = false →
      (pipeline.poll p)[i]? = some pipeline.PollEntry.pyNone) ∧
    (∀ sp, c.subproc = some sp → sp.exited = true →
      (pipeline.poll p)[i]? = some (pipeline.PollEntry.code sp.exitCode)) := by
  have hmap := poll_getElem p i c hc
  refine ⟨by simp [pipeline.poll], ?_, ?_, ?_⟩
  · intro h
    rw [hmap, h]
  · intro sp h he
    rw [hmap, h]
    simp [he]
  · intro sp h he
    rw [hmap, h]
    simp [he]

/-- Witness for C5 at the mixed concrete pipeline. -/
theorem C5_poll_entries_witness :
    (pipeline.poll exMixedPipeline)[0]? = some pipeline.PollEntry.pyFalse ∧
    (pipeline.poll exMixedPipeline)[1]? = some pipeline.PollEntry.pyNone ∧
    (pipeline.poll exMixedPipeline)[2]? = some (pipeline.PollEntry.code 4) :=
  ⟨(C5_poll_entries exMixedPipeline 0 exCmdUnspawned rfl).2.1 rfl,
   (C5_poll_entries exMixedPipeline 1 exCmdRunning rfl).2.2.1 _ rfl rfl,
   (C5_poll_entries exMixedPipeline 2 exCmdExited rfl).2.2.2 _ rfl rfl⟩

/-!
C6.  isRunning(): the claim says true iff at least one stage handle reports
a process that has not exited.  That is what pipeline.py:235-248 computes,
but subpipe.py:246-255 instead reports whether the worker thread is alive,
which can be true when no stage handle exists at all (the thread has been
started but has not yet spawned stage 0).
-/

/-- C6 counterexample: a subpipe.py pipeline whose worker thread is alive
while its only stage has no subprocess yet (the state right after launch
returns, before the thread reaches the first Popen call): is_running()
is true although no stage handle reports anything. -/
theorem C6_is_running_counterexample :
    subpipe.is_running ⟨[exCmdUnspawned], some ⟨5⟩, none, none, StdinSrc.pyNone, 0⟩ = true ∧
    ([exCmdUnspawned].map fun c => c.subproc) = [none] := by
  exact ⟨rfl, rfl⟩

/-- C6 amended: pipeline.py's is_running() is true iff at least one stage
has a spawned subprocess that has not exited, and never blocks; subpipe.py's
is_running() instead reports whether the worker thread exists and is alive,
which is not a function of the stage handles. -/
theorem C6_is_running_iff :
    (∀ p : pipeline.Pipeline, pipeline.is_running p = true ↔
      ∃ c ∈ p.commands, ∃ sp, c.subproc = some sp ∧ sp.exited = false) ∧
    (∀ q : subpipe.Pipeline, subpipe.is_running q = true ↔
      ∃ th, q.thread = some th ∧ 0 < th.aliveFor) := by
  constructor
  · intro p
    rw [pipeline.is_running, List.any_eq_true]
    constructor
    · rintro ⟨c, hc, hm⟩
      refine ⟨c, hc, ?_⟩
      cases h : c.subproc with
      | none => rw [h] at hm; simp at hm
      | some sp =>
        rw [h] at hm
        exact ⟨sp, rfl, by simpa using hm⟩
    · rintro ⟨c, hc, sp, hsp, he⟩
      refine ⟨c, hc, ?_⟩
      rw [hsp]
      simp [he]
  · intro q
    cases h : q.thread with
    | none => simp [subpipe.is_running, h]
    | some th => simp [subpipe.is_running, h]

/-- Witness for C6: the pipeline.py direction at a concrete running
pipeline, and the subpipe.py direction at a concrete thread-alive
pipeline. -/
theorem C6_is_running_iff_witness :
    pipeline.is_running exMixedPipeline = true ∧
    subpipe.is_running ⟨[exCmdUnspawned], some ⟨5⟩, none, none, StdinSrc.pyNone, 0⟩ = true :=
  ⟨(C6_is_running_iff.1 exMixedPipeline).mpr
      ⟨exCmdRunning, by simp [exMixedPipeline], ⟨0, StdinSrc.pyNone, false, 0, []⟩, rfl, rfl⟩,
   (C6_is_running_iff.2 ⟨[exCmdUnspawned], some ⟨5⟩, none, none, StdinSrc.pyNone, 0⟩).mpr
      ⟨⟨5⟩, rfl, by decide⟩⟩

/-!
C7.  sendSignal / terminate / kill broadcast to every spawned stage, skip
stages not spawned or already exited, and never fail the whole broadcast.
-/

/-- C7: the broadcast loop shared by pipeline.py:286-293 and
subpipe.py:288-302 visits every stage: a stage with no subprocess is left
untouched (the `if item.subproc` guard), a stage whose process has already
exited is left untouched (Popen.send_signal does nothing for a completed
process — the expected race is swallowed, not surfaced, and the broadcast
is a total function that cannot fail), and every spawned, still running
stage gets the signal delivered.  terminate() and kill() are the broadcast
with SIGTERM and SIGKILL. -/
theorem C7_signal_broadcast (sig : Nat) (cmds : List Command) (i : Nat) (c : Command)
    (hc : cmds[i]? = some c) :
    (broadcastSignal sig cmds).length = cmds.length ∧
    (c.subproc = none → (broadcastSignal sig cmds)[i]? = some c) ∧
    (∀ sp, c.subproc = some sp → sp.exited = true →
      (broadcastSignal sig cmds)[i]? = some c) ∧
    (∀ sp, c.subproc = some sp → sp.exited = false →
      (broadcastSignal sig cmds)[i]? =
        some { c with subproc := some { sp with signals := sp.signals ++ [sig] } }) ∧
    (∀ p : pipeline.Pipeline,
      (pipeline.send_signal sig p).commands = broadcastSignal sig p.commands ∧
      pipeline.terminate p = pipeline.send_signal pipeline.SIGTERM p ∧
      pipeline.kill p = pipeline.send_signal pipeline.SIGKILL p) ∧
    (∀ q : subpipe.Pipeline,
      (subpipe.send_signal sig q).commands = broadcastSignal sig q.commands) := by
  have hmap := broadcastSignal_getElem sig cmds i c hc
  refine ⟨by simp [broadcastSignal], ?_, ?_, ?_, fun p => ⟨rfl, rfl, rfl⟩, fun q => rfl⟩
  · intro h
    rw [hmap, h]
  · intro sp h he
    rw [hmap, h]
    simp only [Subproc.send_signal, he, if_pos]
    rw [← h]
  · intro sp h he
    rw [hmap, h]
    simp [Subproc.send_signal, he]

/-- Witness for C7 at the mixed concrete pipeline: the unspawned and the
exited stage are untouched, the running stage receives SIGTERM. -/
theorem C7_signal_broadcast_witness :
    (broadcastSignal pipeline.SIGTERM exMixedPipeline.commands)[0]? = some exCmdUnspawned ∧
    (broadcastSignal pipeline.SIGTERM exMixedPipeline.commands)[2]? = some exCmdExited ∧
    (broadcastSignal pipeline.SIGTERM exMixedPipeline.commands)[1]? =
      some ⟨["sleep", "10"], StreamVal.pipe, StreamVal.pyNone, 1, ⟨true, 0⟩,
        some ⟨0, StdinSrc.pyNone, false, 0, [15]⟩⟩ :=
  ⟨(C7_signal_broadcast pipeline.SIGTERM exMixedPipeline.commands 0 exCmdUnspawned rfl).2.1 rfl,
   (C7_signal_broadcast pipeline.SIGTERM exMixedPipeline.commands 2 exCmdExited rfl).2.2.1 _ rfl rfl,
   (C7_signal_broadcast pipeline.SIGTERM exMixedPipeline.commands 1 exCmdRunning rfl).2.2.2.1 _ rfl rfl⟩

/-!
C4.  wait(timeout) and the timeout condition.  The claim (and the docstring
of subpipe.py:257-265) say a distinguished TimeoutExpired is raised and no
process is killed.  In subpipe.py the name TimeoutExpired is never imported
(subpipe.py:33 imports only Popen, DEVNULL, PIPE, STDOUT from subprocess),
so the `raise TimeoutExpired()` at subpipe.py:271 raises NameError instead —
the code contradicts its own documentation.
-/

/-- C4: evaluating subpipe.py Pipeline.wait(timeout) at the failing input: a
launched pipeline whose worker thread stays alive for 1000 more time units
(a stage sleeping 10 seconds) and a timeout of 1 unit.  The busy-wait loop
reaches the raise statement, which produces NameError "TimeoutExpired"
rather than the distinguished timeout exception; no signal is delivered by
wait (it only reads the state), and is_running() is still true on the very
state the caller holds after the exception. -/
theorem C4_timeout_raises_nameError :
    subpipe.wait ⟨[exCmdRunning], some ⟨1000⟩, none, none, StdinSrc.pyNone, 1⟩ (some 1) =
      Except.error (subpipe.PyExc.nameError "TimeoutExpired") ∧
    subpipe.is_running ⟨[exCmdRunning], some ⟨1000⟩, none, none, StdinSrc.pyNone, 1⟩ = true ∧
    subpipe.raiseTimeout = subpipe.PyExc.nameError "TimeoutExpired" := by
  exact ⟨rfl, rfl, by decide⟩

/-!
C1.  wait() with no timeout.  pipeline.py:267-285 does return one exit code
per stage in stage order, but subpipe.py:257-287 (also cited by the claim)
returns a 3-tuple (exit code of the final stage only, captured output,
captured error), so the claim fails for the subpipe.Pipeline class.
-/

/-- C1 counterexample: a completed 2-stage subpipe.py pipeline whose stages
exited with codes 3 and 7.  wait() returns the 3-tuple (7, output, error):
a single exit code — the final stage's — and the captured data; the exit
code 3 of stage 0 appears nowhere, so the result is not a sequence of N = 2
exit codes, one per stage. -/
theorem C1_wait_counterexample :
    subpipe.wait
      ⟨[⟨["cat"], StreamVal.pipe, StreamVal.pyNone, 1, ⟨true, 3⟩,
          some ⟨0, StdinSrc.tempFile, true, 3, []⟩⟩,
        ⟨["tr", "o", "0"], StreamVal.pipe, StreamVal.pyNone, 1, ⟨true, 7⟩,
          some ⟨1, StdinSrc.fromStdout 0, true, 7, []⟩⟩],
        some ⟨0⟩, some "Hell0, W0rld", none, StdinSrc.tempFile, 2⟩ none =
      Except.ok (some 7, some "Hell0, W0rld", none) ∧ (2 ≠ 1 ∧ (3 : Int) ≠ 7) := by
  exact ⟨rfl, by decide, by decide⟩

/-- C1 amended: for pipeline.py, wait() with no timeout on a pipeline whose
stages were all spawned returns exactly one exit code per stage, in stage
order; for subpipe.py, wait() instead returns a single 3-tuple whose first
component is the exit code of the final stage only (Python None if that
stage was never created), together with the captured output and error
data. -/
theorem C1_wait_codes :
    (∀ p : pipeline.Pipeline, (∀ c ∈ p.commands, c.subproc.isSome) →
      (pipeline.wait p).length = p.commands.length ∧
      (∀ (i : Nat) (c : Command), p.commands[i]? = some c →
        ∃ sp : Subproc, c.subproc = some sp ∧
          (pipeline.wait p)[i]? = some (pipeline.WaitEntry.code sp.exitCode))) ∧
    (∀ (q : subpipe.Pipeline) (c : Command), subpipe.aliveSteps q = 0 →
      q.commands.getLast? = some c →
      subpipe.wait q none =
        Except.ok ((match c.subproc with | some sp => sp.returncode | none => none),
          q.output, q.error)) := by
  constructor
  · intro p hall
    refine ⟨by simp [pipeline.wait], ?_⟩
    intro i c hc
    have hmem : c ∈ p.commands := List.getElem?_mem hc
    obtain ⟨sp, hsp⟩ := Option.isSome_iff_exists.mp (hall c hmem)
    refine ⟨sp, hsp, ?_⟩
    rw [wait_getElem p i c hc, hsp]
  · intro q c h0 hlast
    unfold subpipe.wait
    rw [h0]
    show (match subpipe.waitLoop 0 0 none with
      | Except.error e => Except.error e
      | Except.ok () => _) = _
    rw [show subpipe.waitLoop 0 0 none = Except.ok () from rfl]
    rw [hlast]

/-- Witness for C1: the pipeline.py half at a 2-stage fully spawned
pipeline, the subpipe.py half at a completed single-stage pipeline. -/
theorem C1_wait_codes_witness :
    (pipeline.wait ⟨StreamVal.pyNone, StreamVal.pyNone, StdinSrc.pyNone,
        [exCmdRunning, exCmdExited], 2⟩).length = 2 ∧
    subpipe.wait ⟨[exCmdExited], some ⟨0⟩, none, none, StdinSrc.pyNone, 2⟩ none =
      Except.ok (some 4, none, none) := by
  constructor
  · exact (C1_wait_codes.1 ⟨StreamVal.pyNone, StreamVal.pyNone, StdinSrc.pyNone,
      [exCmdRunning, exCmdExited], 2⟩ (by decide)).1
  · exact C1_wait_codes.2 ⟨[exCmdExited], some ⟨0⟩, none, none, StdinSrc.pyNone, 2⟩
      exCmdExited rfl rfl

/-!
Lemmas about setLastStreams and the spawn loop.
-/

theorem setLastStreams_map {β : Type} (o e : StreamVal) (l : List Command) (f : Command → β)
    (hf : ∀ c : Command, f { c with stdoutV := o, stderrV := e } = f c) :
    (pipeline.setLastStreams o e l).map f = l.map f := by
  induction l with
  | nil => rfl
  | cons c tl ih =>
    cases tl with
    | nil => simp [pipeline.setLastStreams, hf]
    | cons c2 rest =>
      simp only [pipeline.setLastStreams, List.map_cons]
      rw [ih]
      simp

theorem setLastStreams_length (o e : StreamVal) (l : List Command) :
    (pipeline.setLastStreams o e l).length = l.length := by
  have h := setLastStreams_map o e l (fun c => c.subproc) fun _ => rfl
  calc (pipeline.setLastStreams o e l).length
      = ((pipeline.setLastStreams o e l).map fun c => c.subproc).length :=
        (List.length_map _ _).symm
    _ = (l.map fun c => c.subproc).length := by rw [h]
    _ = l.length := List.length_map _ _

theorem all_spawnOk_of_map_proc_eq {l1 l2 : List Command}
    (h : l1.map (fun c => c.proc) = l2.map fun c => c.proc)
    (hok : ∀ c ∈ l2, c.proc.spawnOk = true) :
    ∀ c ∈ l1, c.proc.spawnOk = true := by
  intro c hc
  have hm : c.proc ∈ l1.map fun c => c.proc := List.mem_map_of_mem _ hc
  rw [h] at hm
  obtain ⟨c2, hc2, he⟩ := List.mem_map.mp hm
  exact he ▸ hok c2 hc2

theorem setLastStreams_all_spawnOk (o e : StreamVal) {l : List Command}
    (hok : ∀ c ∈ l, c.proc.spawnOk = true) :
    ∀ c ∈ pipeline.setLastStreams o e l, c.proc.spawnOk = true :=
  all_spawnOk_of_map_proc_eq (setLastStreams_map o e l (fun c => c.proc) fun _ => rfl) hok

/-- When every command spawns successfully, the spawn loop reports no
failure, keeps the number of commands, gives every command a subprocess
while preserving its oracle, and emits exactly one spawn event per
command. -/
theorem launchSeq_all_ok (cmds : List Command) :
    ∀ (idx pid : Nat) (src0 : StdinSrc) (prev : Option (Nat × Command)),
      (∀ c ∈ cmds, c.proc.spawnOk = true) →
      (launchSeq idx pid src0 prev cmds).failedAt = none ∧
      (launchSeq idx pid src0 prev cmds).commands.length = cmds.length ∧
      (∀ c' ∈ (launchSeq idx pid src0 prev cmds).commands,
        c'.proc.spawnOk = true ∧ c'.subproc.isSome) ∧
      ((launchSeq idx pid src0 prev cmds).events.filterMap spawnIdx).length = cmds.length := by
  induction cmds with
  | nil =>
    intro idx pid src0 prev h
    simp [launchSeq]
  | cons c rest ih =>
    intro idx pid src0 prev h
    have hc : c.proc.spawnOk = true := h c (List.mem_cons_self c rest)
    have hrest : ∀ x ∈ rest, x.proc.spawnOk = true :=
      fun x hx => h x (List.mem_cons_of_mem c hx)
    rcases prev with _ | ⟨ppid, pc⟩
    · obtain ⟨ih1, ih2, ih3, ih4⟩ :=
        ih (idx + 1) (pid + 1) src0 (some (pid, spawnCmd pid src0 c)) hrest
      refine ⟨?_, ?_, ?_, ?_⟩ <;>
        simp only [launchSeq, hc, if_true, List.length_cons, List.filterMap_cons,
          List.filterMap_append, List.nil_append, List.cons_append, spawnIdx]
      · exact ih1
      · rw [ih2]
      · intro c' hc'
        rcases List.mem_cons.mp hc' with h1 | h2
        · subst h1
          exact ⟨hc, rfl⟩
        · exact ih3 c' h2
      · simp [ih4]
    · obtain ⟨ih1, ih2, ih3, ih4⟩ :=
        ih (idx + 1) (pid + 1) src0 (some (pid, spawnCmd pid (forwardedHandle ppid pc) c)) hrest
      refine ⟨?_, ?_, ?_, ?_⟩ <;>
        simp only [launchSeq, hc, if_true, List.length_cons, List.filterMap_cons,
          List.filterMap_append, List.cons_append, spawnIdx]
      · exact ih1
      · rw [ih2]
      · intro c' hc'
        rcases List.mem_cons.mp hc' with h1 | h2
        · subst h1
          exact ⟨hc, rfl⟩
        · exact ih3 c' h2
      · simp [ih4]

/-- Unfolding of Pipeline.launch on a nonempty command list. -/
theorem launch_eq (p : pipeline.Pipeline) (hne : p.commands ≠ []) :
    pipeline.launch p =
      ⟨{ p with
          commands := (launchSeq 0 p.nextPid p.stdin none
            (pipeline.setLastStreams p.stdoutV p.stderrV p.commands)).commands,
          nextPid := (launchSeq 0 p.nextPid p.stdin none
            (pipeline.setLastStreams p.stdoutV p.stderrV p.commands)).nextPid },
        (launchSeq 0 p.nextPid p.stdin none
          (pipeline.setLastStreams p.stdoutV p.stderrV p.commands)).events,
        (launchSeq 0 p.nextPid p.stdin none
          (pipeline.setLastStreams p.stdoutV p.stderrV p.commands)).failedAt⟩ := by
  have h : p.commands.isEmpty = false := by
    cases hl : p.commands with
    | nil => exact absurd hl hne
    | cons a l => rfl
  simp [pipeline.launch, h]

/-!
C3.  Calling launch() twice.  The claim says the second call raises a state
error and spawns nothing.  Neither pipeline.py:200-234 nor subpipe.py:240-245
checks any state: the second call re-runs the spawn loop (respectively
creates and starts a second worker thread), spawning a fresh set of
processes and overwriting the stage handles.
-/

/-- C3 counterexample: a one-stage pipeline.  The second launch() call
reports no error at all, emits a spawn event again, and replaces the stage
handle (pid 0 becomes pid 1), i.e. a second process is spawned. -/
theorem C3_relaunch_counterexample :
    (pipeline.launch ⟨StreamVal.pyNone, StreamVal.pyNone, StdinSrc.pyNone,
        [exCmdUnspawned], 0⟩).failedAt = none ∧
    (pipeline.launch (pipeline.launch ⟨StreamVal.pyNone, StreamVal.pyNone, StdinSrc.pyNone,
        [exCmdUnspawned], 0⟩).pipeline).failedAt = none ∧
    ((pipeline.launch ⟨StreamVal.pyNone, StreamVal.pyNone, StdinSrc.pyNone,
        [exCmdUnspawned], 0⟩).pipeline.commands.map fun c => c.subproc.map Subproc.pid) =
      [some 0] ∧
    ((pipeline.launch (pipeline.launch ⟨StreamVal.pyNone, StreamVal.pyNone, StdinSrc.pyNone,
        [exCmdUnspawned], 0⟩).pipeline).pipeline.commands.map fun c => c.subproc.map Subproc.pid) =
      [some 1] ∧
    (pipeline.launch (pipeline.launch ⟨StreamVal.pyNone, StreamVal.pyNone, StdinSrc.pyNone,
        [exCmdUnspawned], 0⟩).pipeline).events.filterMap spawnIdx = [0] := by
  exact ⟨rfl, rfl, rfl, rfl, rfl⟩

/-- C3 amended: calling launch() a second time on an already launched
pipeline raises no error; it re-runs the whole spawn loop, emitting one
spawn event per stage again (a full second set of processes) and giving
every stage a fresh subprocess handle. -/
theorem C3_relaunch_spawns_again (p : pipeline.Pipeline) (hne : p.commands ≠ [])
    (hok : ∀ c ∈ p.commands, c.proc.spawnOk = true) :
    (pipeline.launch p).failedAt = none ∧
    (pipeline.launch (pipeline.launch p).pipeline).failedAt = none ∧
    ((pipeline.launch (pipeline.launch p).pipeline).events.filterMap spawnIdx).length =
      p.commands.length ∧
    (∀ c' ∈ (pipeline.launch (pipeline.launch p).pipeline).pipeline.commands,
      c'.subproc.isSome) := by
  have hok1 := setLastStreams_all_spawnOk p.stdoutV p.stderrV hok
  obtain ⟨f1, l1, a1, e1⟩ :=
    launchSeq_all_ok (pipeline.setLastStreams p.stdoutV p.stderrV p.commands)
      0 p.nextPid p.stdin none hok1
  rw [launch_eq p hne]
  set out1 := launchSeq 0 p.nextPid p.stdin none
    (pipeline.setLastStreams p.stdoutV p.stderrV p.commands) with hout1
  have hlen1 : out1.commands.length = p.commands.length := by
    rw [l1, setLastStreams_length]
  have hne1 : out1.commands ≠ [] := by
    intro hnil
    rw [hnil] at hlen1
    exact hne (List.length_eq_zero.mp hlen1.symm)
  have hok2 : ∀ c ∈ out1.commands, c.proc.spawnOk = true := fun c hc => (a1 c hc).1
  have hok2' := setLastStreams_all_spawnOk p.stdoutV p.stderrV hok2
  obtain ⟨f2, l2, a2, e2⟩ :=
    launchSeq_all_ok (pipeline.setLastStreams p.stdoutV p.stderrV out1.commands)
      0 out1.nextPid p.stdin none hok2'
  rw [launch_eq _ hne1]
  refine ⟨f1, f2, ?_, fun c' hc' => (a2 c' hc').2⟩
  rw [e2, setLastStreams_length, hlen1]

/-- Witness for C3 at the one-stage concrete pipeline. -/
theorem C3_relaunch_spawns_again_witness :
    (pipeline.launch ⟨StreamVal.pyNone, StreamVal.pyNone, StdinSrc.pyNone,
        [exCmdUnspawned], 0⟩).failedAt = none ∧
    ((pipeline.launch (pipeline.launch ⟨StreamVal.pyNone, StreamVal.pyNone, StdinSrc.pyNone,
        [exCmdUnspawned], 0⟩).pipeline).events.filterMap spawnIdx).length = 1 :=
  ⟨(C3_relaunch_spawns_again _ (by decide) (by decide)).1,
   (C3_relaunch_spawns_again ⟨StreamVal.pyNone, StreamVal.pyNone, StdinSrc.pyNone,
      [exCmdUnspawned], 0⟩ (by decide) (by decide)).2.2.1⟩

/-!
C2.  Failure while spawning stage i.  The claim says launch terminates the
already spawned stages 0..i-1 before returning the error.  The spawn loop of
pipeline.py:205-232 has no exception handler at all: the Popen error
propagates and the earlier stages are left running, unsignalled.  The
sub-claim about a failing first stage (error raised, zero processes spawned)
does hold.
-/

/-- A stage whose executable does not exist: Popen raises for it. -/
def exCmdBad : Command :=
  ⟨["nosuchprog"], StreamVal.pipe, StreamVal.pyNone, 1, ⟨false, 0⟩, none⟩

/-- When the commands are a prefix that spawns fine followed by a command
whose Popen raises, the spawn loop stops at that command: it reports its
index, emits exactly one spawn event per prefix command, leaves every prefix
command with a freshly spawned subprocess that is still running and has
received no signal, and does not touch the failing command or anything after
it. -/
theorem launchSeq_fail (pre : List Command) :
    ∀ (idx pid : Nat) (src0 : StdinSrc) (prev : Option (Nat × Command))
      (c : Command) (rest : List Command),
      (∀ x ∈ pre, x.proc.spawnOk = true) → c.proc.spawnOk = false →
      (launchSeq idx pid src0 prev (pre ++ c :: rest)).failedAt = some (idx + pre.length) ∧
      ((launchSeq idx pid src0 prev (pre ++ c :: rest)).events.filterMap spawnIdx).length
        = pre.length ∧
      (∀ j, j < pre.length →
        ∃ (c' : Command) (sp : Subproc),
          (launchSeq idx pid src0 prev (pre ++ c :: rest)).commands[j]? = some c' ∧
          c'.subproc = some sp ∧ sp.exited = false ∧ sp.signals = []) ∧
      (launchSeq idx pid src0 prev (pre ++ c :: rest)).commands.drop pre.length
        = c :: rest := by
  induction pre with
  | nil =>
    intro idx pid src0 prev c rest _ hbad
    rcases prev with _ | ⟨ppid, pc⟩ <;>
      simp [launchSeq, hbad, spawnIdx]
  | cons x pre' ih =>
    intro idx pid src0 prev c rest hok hbad
    have hx : x.proc.spawnOk = true := hok x (List.mem_cons_self _ _)
    have hpre' : ∀ y ∈ pre', y.proc.spawnOk = true :=
      fun y hy => hok y (List.mem_cons_of_mem _ hy)
    rcases prev with _ | ⟨ppid, pc⟩
    · obtain ⟨ih1, ih2, ih3, ih4⟩ :=
        ih (idx + 1) (pid + 1) src0 (some (pid, spawnCmd pid src0 x)) c rest hpre' hbad
      refine ⟨?_, ?_, ?_, ?_⟩ <;>
        simp only [List.cons_append, List.append_eq, launchSeq, hx, if_true,
          List.filterMap_cons, List.filterMap_append, List.nil_append, spawnIdx,
          List.length_cons, List.drop_succ_cons]
      · rw [ih1]
        exact congrArg some (by omega)
      · simp [ih2]
      · intro j hj
        cases j with
        | zero => exact ⟨spawnCmd pid src0 x, _, by simp, rfl, rfl, rfl⟩
        | succ j' =>
          rw [List.getElem?_cons_succ]
          exact ih3 j' (Nat.lt_of_succ_lt_succ hj)
      · exact ih4
    · obtain ⟨ih1, ih2, ih3, ih4⟩ :=
        ih (idx + 1) (pid + 1) src0
          (some (pid, spawnCmd pid (forwardedHandle ppid pc) x)) c rest hpre' hbad
      refine ⟨?_, ?_, ?_, ?_⟩ <;>
        simp only [List.cons_append, List.append_eq, launchSeq, hx, if_true,
          List.filterMap_cons, List.filterMap_append, spawnIdx,
          List.length_cons, List.drop_succ_cons]
      · rw [ih1]
        exact congrArg some (by omega)
      · simp [ih2]
      · intro j hj
        cases j with
        | zero => exact ⟨spawnCmd pid (forwardedHandle ppid pc) x, _, by simp, rfl, rfl, rfl⟩
        | succ j' =>
          rw [List.getElem?_cons_succ]
          exact ih3 j' (Nat.lt_of_succ_lt_succ hj)
      · exact ih4

theorem setLastStreams_cons_exists (o e : StreamVal) (c : Command) (rest : List Command) :
    ∃ (c2 : Command) (rest2 : List Command),
      pipeline.setLastStreams o e (c :: rest) = c2 :: rest2 ∧
      c2.proc = c.proc ∧ c2.subproc = c.subproc ∧
      rest2.map (fun x => x.subproc) = rest.map (fun x => x.subproc) ∧
      rest2.length = rest.length := by
  cases rest with
  | nil => exact ⟨_, _, rfl, rfl, rfl, rfl, rfl⟩
  | cons y ys =>
    refine ⟨c, pipeline.setLastStreams o e (y :: ys), rfl, rfl, rfl, ?_, ?_⟩
    · exact setLastStreams_map o e (y :: ys) _ fun _ => rfl
    · exact setLastStreams_length o e (y :: ys)

theorem setLastStreams_append (o e : StreamVal) (l1 l2 : List Command) (h : l2 ≠ []) :
    pipeline.setLastStreams o e (l1 ++ l2) = l1 ++ pipeline.setLastStreams o e l2 := by
  induction l1 with
  | nil => rfl
  | cons x l1' ih =>
    have hne : l1' ++ l2 ≠ [] := by
      intro hnil
      exact h (List.append_eq_nil.mp hnil).2
    cases hl : l1' ++ l2 with
    | nil => exact absurd hl hne
    | cons y ys =>
      rw [List.cons_append, hl]
      show x :: pipeline.setLastStreams o e (y :: ys) =
        x :: l1' ++ pipeline.setLastStreams o e l2
      rw [← hl, ih, List.cons_append]

/-- C2 counterexample: a two-stage pipeline whose second stage names a
nonexistent executable.  launch raises the spawn error for stage 1, but
stage 0 is left with a spawned, still running subprocess (exited = false)
that has received no signal (signals = []): the already spawned stage is not
terminated before the error is returned. -/
theorem C2_launch_failure_counterexample :
    (pipeline.launch ⟨StreamVal.pyNone, StreamVal.pyNone, StdinSrc.pyNone,
        [exCmdUnspawned, exCmdBad], 0⟩).failedAt = some 1 ∧
    ((pipeline.launch ⟨StreamVal.pyNone, StreamVal.pyNone, StdinSrc.pyNone,
        [exCmdUnspawned, exCmdBad], 0⟩).pipeline.commands.map fun x => x.subproc) =
      [some ⟨0, StdinSrc.pyNone, false, 0, []⟩, none] := by
  exact ⟨rfl, rfl⟩

/-- C2 amended: if spawning stage i fails, launch raises the spawn error
naming stage i after having spawned exactly stages 0..i-1, and returns with
those stages still spawned, still running and with no signal delivered (no
rollback termination); the failing stage and all later stages get no
subprocess.  In particular, when the first stage names a nonexistent
executable, launch raises the error with zero processes spawned. -/
theorem C2_launch_failure (p : pipeline.Pipeline) (pre : List Command) (c : Command)
    (rest : List Command) (hsplit : p.commands = pre ++ c :: rest)
    (hok : ∀ x ∈ pre, x.proc.spawnOk = true) (hbad : c.proc.spawnOk = false) :
    (pipeline.launch p).failedAt = some pre.length ∧
    ((pipeline.launch p).events.filterMap spawnIdx).length = pre.length ∧
    (∀ j, j < pre.length →
      ∃ (c' : Command) (sp : Subproc),
        (pipeline.launch p).pipeline.commands[j]? = some c' ∧
        c'.subproc = some sp ∧ sp.exited = false ∧ sp.signals = []) ∧
    ((pipeline.launch p).pipeline.commands.drop pre.length).map (fun x => x.subproc) =
      (c :: rest).map fun x => x.subproc := by
  have hne : p.commands ≠ [] := by
    rw [hsplit]
    simp
  rw [launch_eq p hne]
  obtain ⟨c2, rest2, hsl, hproc, hsub, hmap2, _⟩ :=
    setLastStreams_cons_exists p.stdoutV p.stderrV c rest
  have hcmds : pipeline.setLastStreams p.stdoutV p.stderrV p.commands = pre ++ c2 :: rest2 := by
    rw [hsplit, setLastStreams_append _ _ pre (c :: rest) (by simp), hsl]
  have hbad2 : c2.proc.spawnOk = false := by
    rw [hproc]
    exact hbad
  obtain ⟨f, ev, js, dr⟩ := launchSeq_fail pre 0 p.nextPid p.stdin none c2 rest2 hok hbad2
  rw [hcmds]
  refine ⟨by simpa using f, ev, js, ?_⟩
  rw [dr]
  simp only [List.map_cons, hsub, hmap2]

/-- Witness for C2: the amended theorem applied to the concrete two-stage
pipeline with a failing second stage, and to a pipeline whose first stage
fails (zero processes spawned). -/
theorem C2_launch_failure_witness :
    (pipeline.launch ⟨StreamVal.pyNone, StreamVal.pyNone, StdinSrc.pyNone,
        [exCmdUnspawned, exCmdBad], 0⟩).failedAt = some 1 ∧
    (pipeline.launch ⟨StreamVal.pyNone, StreamVal.pyNone, StdinSrc.pyNone,
        [exCmdBad], 0⟩).failedAt = some 0 ∧
    ((pipeline.launch ⟨StreamVal.pyNone, StreamVal.pyNone, StdinSrc.pyNone,
        [exCmdBad], 0⟩).pipeline.commands.drop 0).map (fun x => x.subproc) =
      [none] :=
  ⟨(C2_launch_failure _ [exCmdUnspawned] exCmdBad [] rfl (by decide) (by decide)).1,
   (C2_launch_failure ⟨StreamVal.pyNone, StreamVal.pyNone, StdinSrc.pyNone,
      [exCmdBad], 0⟩ [] exCmdBad [] rfl (by decide) (by decide)).1,
   (C2_launch_failure ⟨StreamVal.pyNone, StreamVal.pyNone, StdinSrc.pyNone,
      [exCmdBad], 0⟩ [] exCmdBad [] rfl (by decide) (by decide)).2.2.2⟩

/-!
C8.  Spawn order and stream wiring during launch.  The claim cites both
pipeline.py:205-232 and subpipe.py:145-170.  For pipeline.py it holds: the
appended commands keep the pipe dictionary's stream tag, so the forwarded
stream really is stderr when the spec selects stream 2.  For subpipe.py it
fails: append (subpipe.py:237) never passes the stream tag to the SubCommand
constructor, whose stream parameter defaults to 0 (subpipe.py:47), so the
`prev_command.stream == 2` branches of PipeThread.run are dead code.  Under
PIPE_STDERR the next stage's stdin is `prev_command.subproc.stdout`, which
is Python None (stdout was not PIPE), i.e. the stage inherits the parent's
stdin instead of reading the designated stderr pipe, and the close at
subpipe.py:166 then calls `.close()` on None, raising AttributeError inside
the worker thread.
-/

/-- Spawn/close trace as the spec describes it, written from the claim (not
from the loop): stages are spawned strictly left to right; stage 0 reads the
pipeline standard input; for i > 0, stage i reads the retained read end of
stage i-1's designated forwarded stream — the stderr pipe when stage i-1's
pipe spec selects stream 2, otherwise the stdout pipe — and the parent copy
of that forwarded end is closed immediately after stage i is spawned.
`prev` carries the pid and the selected stream of the previously spawned
stage. -/
def specSpawnTrace (idx pid : Nat) (src0 : StdinSrc) (prev : Option (Nat × Nat)) :
    List Command → List Event
  | [] => []
  | c :: rest =>
    match prev with
    | none =>
      Event.spawn idx src0 ::
        specSpawnTrace (idx + 1) (pid + 1) src0 (some (pid, c.stream)) rest
    | some (ppid, pstream) =>
      Event.spawn idx (if pstream == 2 then StdinSrc.fromStderr ppid
          else StdinSrc.fromStdout ppid) ::
        Event.closeEnd ppid pstream ::
          specSpawnTrace (idx + 1) (pid + 1) src0 (some (pid, c.stream)) rest

theorem forwardedHandle_of_pipe (ppid : Nat) (pc : Command) (h : fwdIsPipe pc) :
    forwardedHandle ppid pc =
      if pc.stream == 2 then StdinSrc.fromStderr ppid else StdinSrc.fromStdout ppid := by
  unfold forwardedHandle
  unfold fwdIsPipe at h
  by_cases h2 : pc.stream == 2
  · simp only [h2, if_true] at h ⊢
    simp [h]
  · simp only [h2, Bool.false_eq_true, if_false] at h ⊢
    simp [h]

/-- The event trace of the spawn loop coincides with the trace the spec
describes, provided every command spawns successfully and every non-final
command's forwarded stream is an OS pipe (as with the five shipped pipe
dictionaries). -/
theorem launchSeq_events_spec (cmds : List Command) :
    ∀ (idx pid : Nat) (src0 : StdinSrc) (prev : Option (Nat × Command)),
      (∀ c ∈ cmds, c.proc.spawnOk = true) →
      (∀ (i : Nat) (ci : Command), i + 1 < cmds.length → cmds[i]? = some ci → fwdIsPipe ci) →
      (∀ (pp : Nat) (pc : Command), prev = some (pp, pc) → cmds ≠ [] → fwdIsPipe pc) →
      (launchSeq idx pid src0 prev cmds).events =
        specSpawnTrace idx pid src0 (prev.map fun x => (x.1, x.2.stream)) cmds := by
  induction cmds with
  | nil =>
    intro idx pid src0 prev _ _ _
    rcases prev with _ | ⟨pp, pc⟩ <;> rfl
  | cons c rest ih =>
    intro idx pid src0 prev hok hfwd hprev
    have hc : c.proc.spawnOk = true := hok c (List.mem_cons_self _ _)
    have hokr : ∀ x ∈ rest, x.proc.spawnOk = true :=
      fun x hx => hok x (List.mem_cons_of_mem _ hx)
    have hfwdr : ∀ (i : Nat) (ci : Command), i + 1 < rest.length →
        rest[i]? = some ci → fwdIsPipe ci := by
      intro i ci hi hci
      refine hfwd (i + 1) ci (by simpa using Nat.succ_lt_succ hi) ?_
      rw [List.getElem?_cons_succ]
      exact hci
    have hcfwd : rest ≠ [] → fwdIsPipe c := by
      intro hr
      refine hfwd 0 c ?_ (by simp)
      have : 0 < rest.length := List.length_pos.mpr hr
      simpa using Nat.succ_lt_succ this
    rcases prev with _ | ⟨ppid, pc⟩
    · have ihr := ih (idx + 1) (pid + 1) src0 (some (pid, spawnCmd pid src0 c))
        hokr hfwdr (by
          intro pp pc2 hsome hr
          injection hsome with h1
          cases h1
          exact hcfwd hr)
      simp only [launchSeq, hc, if_true, specSpawnTrace, List.cons_append, List.nil_append,
        Option.map_none', Option.map_some']
      rw [ihr]
      rfl
    · have hpcf : fwdIsPipe pc := hprev ppid pc rfl (by simp)
      have ihr := ih (idx + 1) (pid + 1) src0
        (some (pid, spawnCmd pid (forwardedHandle ppid pc) c))
        hokr hfwdr (by
          intro pp pc2 hsome hr
          injection hsome with h1
          cases h1
          exact hcfwd hr)
      simp only [launchSeq, hc, if_true, specSpawnTrace, List.cons_append, List.nil_append,
        Option.map_some']
      rw [ihr, forwardedHandle_of_pipe ppid pc hpcf]
      rfl

/-- The spawn events of the spec trace are the consecutive stage indices in
order: strict left-to-right spawn order. -/
theorem specSpawnTrace_filterMap (cmds : List Command) :
    ∀ (idx pid : Nat) (src0 : StdinSrc) (prev : Option (Nat × Nat)),
      (specSpawnTrace idx pid src0 prev cmds).filterMap spawnIdx =
        List.range' idx cmds.length := by
  induction cmds with
  | nil =>
    intro idx pid src0 prev
    rcases prev with _ | ⟨pp, ps⟩ <;> rfl
  | cons c rest ih =>
    intro idx pid src0 prev
    rcases prev with _ | ⟨pp, ps⟩ <;>
      simp [specSpawnTrace, spawnIdx, ih, List.range'_succ]

/-- The spec trace ignores the stdout/stderr replacement that launch
performs on the last command (it reads only each command's selected stream
number, which setLastStreams preserves). -/
theorem specSpawnTrace_setLast (o e : StreamVal) (l : List Command) :
    ∀ (idx pid : Nat) (src0 : StdinSrc) (prev : Option (Nat × Nat)),
      specSpawnTrace idx pid src0 prev (pipeline.setLastStreams o e l) =
        specSpawnTrace idx pid src0 prev l := by
  induction l with
  | nil =>
    intro idx pid src0 prev
    rfl
  | cons c tl ih =>
    cases tl with
    | nil =>
      intro idx pid src0 prev
      rcases prev with _ | ⟨pp, ps⟩ <;> rfl
    | cons c2 rest =>
      intro idx pid src0 prev
      rcases prev with _ | ⟨pp, ps⟩ <;>
        simp only [pipeline.setLastStreams, specSpawnTrace] <;>
        rw [ih] <;> rfl

theorem setLastStreams_getElem?_of_lt (o e : StreamVal) (l : List Command) :
    ∀ (i : Nat), i + 1 < l.length → (pipeline.setLastStreams o e l)[i]? = l[i]? := by
  induction l with
  | nil =>
    intro i hi
    simp at hi
  | cons c tl ih =>
    cases tl with
    | nil =>
      intro i hi
      simp at hi
    | cons c2 rest =>
      intro i hi
      cases i with
      | zero => simp [pipeline.setLastStreams]
      | succ j =>
        show (c :: pipeline.setLastStreams o e (c2 :: rest))[j + 1]? = (c :: c2 :: rest)[j + 1]?
        rw [List.getElem?_cons_succ, List.getElem?_cons_succ]
        refine ih j ?_
        simp only [List.length_cons] at hi ⊢
        omega

/-- During a pipeline.py launch with the shipped pipe dictionaries (whose
forwarded stream is always an OS pipe) and no spawn failure, the event trace
of Pipeline.launch is exactly the trace the spec describes: stage i+1 is
spawned only after stage i, its standard input is the retained read end of
stage i's forwarded stream — stderr when stage i's pipe spec selects stream
2, otherwise stdout — and the parent copy of that end is closed immediately
after stage i+1 is spawned; the spawn events are the stage indices 0..N-1 in
order. -/
theorem launch_trace_spec (p : pipeline.Pipeline) (hne : p.commands ≠ [])
    (hok : ∀ c ∈ p.commands, c.proc.spawnOk = true)
    (hfwd : ∀ c ∈ p.commands, fwdIsPipe c) :
    (pipeline.launch p).events = specSpawnTrace 0 p.nextPid p.stdin none p.commands ∧
    (pipeline.launch p).events.filterMap spawnIdx = List.range p.commands.length := by
  rw [launch_eq p hne]
  have hok' := setLastStreams_all_spawnOk p.stdoutV p.stderrV hok
  have hfwd' : ∀ (i : Nat) (ci : Command),
      i + 1 < (pipeline.setLastStreams p.stdoutV p.stderrV p.commands).length →
      (pipeline.setLastStreams p.stdoutV p.stderrV p.commands)[i]? = some ci →
      fwdIsPipe ci := by
    intro i ci hi hci
    rw [setLastStreams_length] at hi
    rw [setLastStreams_getElem?_of_lt p.stdoutV p.stderrV p.commands i hi] at hci
    exact hfwd ci (List.getElem?_mem hci)
  have h1 := launchSeq_events_spec (pipeline.setLastStreams p.stdoutV p.stderrV p.commands)
    0 p.nextPid p.stdin none hok' hfwd' (fun _ _ hsome _ => by cases hsome)
  simp only [Option.map_none'] at h1
  rw [h1, specSpawnTrace_setLast]
  refine ⟨rfl, ?_⟩
  rw [specSpawnTrace_filterMap]
  exact (List.range_eq_range' p.commands.length).symm

/-- Pipeline.append of pipeline.py:141-199, restricted to the fields the
claims touch: the stdout/stderr values and the stream tag are all copied
from the pipe dictionary (pipeline.py:194-196). -/
def pipeline.append (ps : PipeSpec) (args : List String) (pr : ProcSpec) : Command :=
  ⟨args, ps.stdoutV, ps.stderrV, ps.stream, pr, none⟩

/-- Pipeline.append of subpipe.py:212-238: the stdout and stderr values are
read from the pipe dictionary, but its stream tag is never passed to the
SubCommand constructor (subpipe.py:237 passes command, stdout, stderr, cwd,
base_env, export, text only), whose stream parameter defaults to 0
(subpipe.py:47).  Every appended SubCommand therefore carries stream 0. -/
def subpipe.append (ps : PipeSpec) (args : List String) (pr : ProcSpec) : Command :=
  ⟨args, ps.stdoutV, ps.stderrV, 0, pr, none⟩

/-- Errors the PipeThread.run loop can raise: a Popen failure at the given
stage, or the AttributeError from calling .close() on a forwarded-stream
attribute that is Python None (subpipe.py:164 and 166). -/
inductive subpipe.RunErr where
  | spawnError (idx : Nat)
  | attributeError
deriving DecidableEq

/-- Which handle the close step of PipeThread.run (subpipe.py:162-167)
closes for the previous command: the stderr attribute if its stream tag is
2, otherwise the stdout attribute; the attribute is a pipe object only when
PIPE was passed for that stream, and Python None otherwise — in which case
the close raises AttributeError (`none` here). -/
def subpipe.closeTarget (pc : Command) : Option Nat :=
  if pc.stream == 2 then
    (if pc.stderrV == StreamVal.pipe then some 2 else none)
  else
    (if pc.stdoutV == StreamVal.pipe then some 1 else none)

/-- Result of the PipeThread.run spawn loop. -/
structure subpipe.RunOut where
  commands : List Command
  events : List Event
  error : Option subpipe.RunErr
  nextPid : Nat
deriving DecidableEq

/-- The spawn loop of PipeThread.run (subpipe.py:145-170).  The loop text is
the same as in pipeline.py, but it operates on SubCommands (whose stream tag
is always 0 when built by subpipe.append) and its close step is modelled
faithfully: after spawning the current command, the previous command's
forwarded attribute is closed, and if that attribute is Python None the
.close() call raises AttributeError, killing the thread with the remaining
commands untouched. -/
def subpipe.runSeq (idx pid : Nat) (src0 : StdinSrc) (prev : Option (Nat × Command)) :
    List Command → subpipe.RunOut
  | [] => ⟨[], [], none, pid⟩
  | c :: rest =>
    let stdin := match prev with
      | none => src0
      | some (ppid, pc) => forwardedHandle ppid pc
    if c.proc.spawnOk then
      let c' := spawnCmd pid stdin c
      match prev with
      | none =>
        let out := subpipe.runSeq (idx + 1) (pid + 1) src0 (some (pid, c')) rest
        ⟨c' :: out.commands, Event.spawn idx stdin :: out.events, out.error, out.nextPid⟩
      | some (ppid, pc) =>
        match subpipe.closeTarget pc with
        | some strm =>
          let out := subpipe.runSeq (idx + 1) (pid + 1) src0 (some (pid, c')) rest
          ⟨c' :: out.commands, Event.spawn idx stdin :: Event.closeEnd ppid strm :: out.events,
            out.error, out.nextPid⟩
        | none =>
          ⟨c' :: rest, [Event.spawn idx stdin], some subpipe.RunErr.attributeError, pid + 1⟩
    else
      ⟨c :: rest, [], some (subpipe.RunErr.spawnError idx), pid⟩

/-- Trace of the subpipe.py run loop in its only live regime (every stream
tag is 0): each stage after the first reads the retained read end of the
previous stage's stdout pipe, and the parent copy of that stdout end is
closed immediately after the next stage is spawned. -/
def subpipe.specStdoutTrace (idx pid : Nat) (src0 : StdinSrc) (prev : Option Nat) :
    List Command → List Event
  | [] => []
  | _ :: rest =>
    match prev with
    | none =>
      Event.spawn idx src0 ::
        subpipe.specStdoutTrace (idx + 1) (pid + 1) src0 (some pid) rest
    | some ppid =>
      Event.spawn idx (StdinSrc.fromStdout ppid) :: Event.closeEnd ppid 1 ::
        subpipe.specStdoutTrace (idx + 1) (pid + 1) src0 (some pid) rest

/-- In the stdout-forwarding regime (no stream tag 2, every non-final
command's stdout a pipe) the subpipe run loop spawns left to right, wiring
each stage to the previous stage's stdout pipe, and raises no error. -/
theorem runSeq_events_stdout (cmds : List Command) :
    ∀ (idx pid : Nat) (src0 : StdinSrc) (prev : Option (Nat × Command)),
      (∀ c ∈ cmds, c.proc.spawnOk = true) →
      (∀ (i : Nat) (ci : Command), i + 1 < cmds.length → cmds[i]? = some ci →
        ci.stream ≠ 2 ∧ ci.stdoutV = StreamVal.pipe) →
      (∀ (pp : Nat) (pc : Command), prev = some (pp, pc) → cmds ≠ [] →
        pc.stream ≠ 2 ∧ pc.stdoutV = StreamVal.pipe) →
      (subpipe.runSeq idx pid src0 prev cmds).events =
        subpipe.specStdoutTrace idx pid src0 (prev.map fun x => x.1) cmds ∧
      (subpipe.runSeq idx pid src0 prev cmds).error = none := by
  induction cmds with
  | nil =>
    intro idx pid src0 prev _ _ _
    rcases prev with _ | ⟨pp, pc⟩ <;> exact ⟨rfl, rfl⟩
  | cons c rest ih =>
    intro idx pid src0 prev hok hfwd hprev
    have hc : c.proc.spawnOk = true := hok c (List.mem_cons_self _ _)
    have hokr : ∀ x ∈ rest, x.proc.spawnOk = true :=
      fun x hx => hok x (List.mem_cons_of_mem c hx)
    have hfwdr : ∀ (i : Nat) (ci : Command), i + 1 < rest.length → rest[i]? = some ci →
        ci.stream ≠ 2 ∧ ci.stdoutV = StreamVal.pipe := by
      intro i ci hi hci
      refine hfwd (i + 1) ci (by simpa using Nat.succ_lt_succ hi) ?_
      rw [List.getElem?_cons_succ]
      exact hci
    have hcfwd : rest ≠ [] → c.stream ≠ 2 ∧ c.stdoutV = StreamVal.pipe := by
      intro hr
      refine hfwd 0 c ?_ (by simp)
      have : 0 < rest.length := List.length_pos.mpr hr
      simpa using Nat.succ_lt_succ this
    rcases prev with _ | ⟨ppid, pc⟩
    · obtain ⟨ih1, ih2⟩ := ih (idx + 1) (pid + 1) src0 (some (pid, spawnCmd pid src0 c))
        hokr hfwdr (by
          intro pp pc2 hsome hr
          injection hsome with h1
          cases h1
          exact hcfwd hr)
      simp only [Option.map_some'] at ih1
      constructor
      · simp only [subpipe.runSeq, hc, if_true, subpipe.specStdoutTrace, Option.map_none']
        rw [ih1]
      · simp only [subpipe.runSeq, hc, if_true]
        exact ih2
    · have hpcp := hprev ppid pc rfl (by simp)
      have hfh : forwardedHandle ppid pc = StdinSrc.fromStdout ppid := by
        simp [forwardedHandle, beq_eq_false_iff_ne.mpr hpcp.1, hpcp.2]
      have hct : subpipe.closeTarget pc = some 1 := by
        simp [subpipe.closeTarget, beq_eq_false_iff_ne.mpr hpcp.1, hpcp.2]
      obtain ⟨ih1, ih2⟩ := ih (idx + 1) (pid + 1) src0
        (some (pid, spawnCmd pid (forwardedHandle ppid pc) c)) hokr hfwdr (by
          intro pp pc2 hsome hr
          injection hsome with h1
          cases h1
          exact hcfwd hr)
      simp only [Option.map_some'] at ih1
      constructor
      · simp only [subpipe.runSeq, hc, if_true, hct, subpipe.specStdoutTrace,
          Option.map_some', hfh]
        rw [hfh] at ih1
        rw [ih1]
      · simp only [subpipe.runSeq, hc, if_true, hct]
        exact ih2

/-- C8 counterexample: a producer | consumer subpipe.py pipeline appended
with PIPE_STDERR for the producer.  The appended SubCommand carries stream
tag 0 although the pipe spec selects stream 2; running the thread loop,
stage 1's standard input is Python None (the parent's stdin is inherited),
not the retained read end of stage 0's stderr pipe, and the loop dies with
AttributeError when it closes the None stdout attribute of stage 0. -/
theorem C8_wiring_counterexample :
    (subpipe.append PIPE_STDERR ["producer"] ⟨true, 0⟩).stream = 0 ∧
    PIPE_STDERR.stream = 2 ∧
    (subpipe.runSeq 0 0 StdinSrc.pyNone none
      [subpipe.append PIPE_STDERR ["producer"] ⟨true, 0⟩,
       subpipe.append PIPE_STDOUT ["consumer"] ⟨true, 0⟩]).events =
      [Event.spawn 0 StdinSrc.pyNone, Event.spawn 1 StdinSrc.pyNone] ∧
    (subpipe.runSeq 0 0 StdinSrc.pyNone none
      [subpipe.append PIPE_STDERR ["producer"] ⟨true, 0⟩,
       subpipe.append PIPE_STDOUT ["consumer"] ⟨true, 0⟩]).error =
      some subpipe.RunErr.attributeError ∧
    StdinSrc.pyNone ≠ StdinSrc.fromStderr 0 := by
  exact ⟨rfl, rfl, rfl, rfl, by decide⟩

/-- C8 amended: in pipeline.py, stages are spawned strictly left to right
and for every stage i > 0 the standard input handed to stage i is the
retained read end of stage i-1's designated forwarded stream (stderr when
the pipe spec selects stream 2, otherwise stdout), the parent copy of which
is closed immediately after stage i is spawned.  In subpipe.py, append drops
the pipe dictionary's stream tag (every SubCommand has stream 0 while
pipeline.py's append keeps the tag), so the run thread always resolves the
forwarded stream from the previous stage's stdout attribute: with
stdout-forwarding pipe specs the stages are spawned left to right wired
through the stdout pipes with the same close discipline, but when a stage's
spec selects stream 2 (its stdout attribute is not a pipe), the next stage's
standard input is Python None — not the retained stderr read end — and the
loop raises AttributeError closing that None attribute. -/
theorem C8_spawn_order :
    (∀ p : pipeline.Pipeline, p.commands ≠ [] →
      (∀ c ∈ p.commands, c.proc.spawnOk = true) →
      (∀ c ∈ p.commands, fwdIsPipe c) →
      (pipeline.launch p).events = specSpawnTrace 0 p.nextPid p.stdin none p.commands ∧
      (pipeline.launch p).events.filterMap spawnIdx = List.range p.commands.length) ∧
    (∀ (ps : PipeSpec) (args : List String) (pr : ProcSpec),
      (pipeline.append ps args pr).stream = ps.stream ∧
      (subpipe.append ps args pr).stream = 0) ∧
    (∀ (cmds : List Command) (pid : Nat) (src0 : StdinSrc),
      (∀ c ∈ cmds, c.proc.spawnOk = true) →
      (∀ (i : Nat) (ci : Command), i + 1 < cmds.length → cmds[i]? = some ci →
        ci.stream ≠ 2 ∧ ci.stdoutV = StreamVal.pipe) →
      (subpipe.runSeq 0 pid src0 none cmds).events =
        subpipe.specStdoutTrace 0 pid src0 none cmds ∧
      (subpipe.runSeq 0 pid src0 none cmds).error = none) ∧
    (∀ (pid : Nat) (src0 : StdinSrc) (c0 c1 : Command) (rest : List Command),
      c0.proc.spawnOk = true → c1.proc.spawnOk = true →
      c0.stream ≠ 2 → c0.stdoutV ≠ StreamVal.pipe →
      (subpipe.runSeq 0 pid src0 none (c0 :: c1 :: rest)).events =
        [Event.spawn 0 src0, Event.spawn 1 StdinSrc.pyNone] ∧
      (subpipe.runSeq 0 pid src0 none (c0 :: c1 :: rest)).error =
        some subpipe.RunErr.attributeError) := by
  refine ⟨launch_trace_spec, fun ps args pr => ⟨rfl, rfl⟩, ?_, ?_⟩
  · intro cmds pid src0 hok hfwd
    exact runSeq_events_stdout cmds 0 pid src0 none hok hfwd (fun _ _ hsome _ => by cases hsome)
  · intro pid src0 c0 c1 rest h0 h1 hs hp
    have hfh : forwardedHandle pid (spawnCmd pid src0 c0) = StdinSrc.pyNone := by
      simp [forwardedHandle, spawnCmd, beq_eq_false_iff_ne.mpr hs, beq_eq_false_iff_ne.mpr hp]
    have hct : subpipe.closeTarget (spawnCmd pid src0 c0) = none := by
      simp [subpipe.closeTarget, spawnCmd, beq_eq_false_iff_ne.mpr hs,
        beq_eq_false_iff_ne.mpr hp]
    constructor <;>
      simp only [subpipe.runSeq, h0, h1, if_true, hfh, hct]

/-- Witness for C8: the pipeline.py direction at a concrete cat → grep → tr
pipeline whose second stage forwards stderr (the trace visibly reads the
stderr pipe of pid 1); the tag-drop fact at PIPE_STDERR; the subpipe
stdout-forwarding direction at a concrete two-stage pipeline; and the
subpipe stderr failure at a concrete two-stage pipeline. -/
theorem C8_spawn_order_witness :
    (pipeline.launch ⟨StreamVal.handle 5, StreamVal.pyNone, StdinSrc.tempFile,
        [⟨["cat"], StreamVal.pipe, StreamVal.pyNone, 1, ⟨true, 0⟩, none⟩,
         ⟨["grep", "World"], StreamVal.pyNone, StreamVal.pipe, 2, ⟨true, 0⟩, none⟩,
         ⟨["tr", "o", "0"], StreamVal.pipe, StreamVal.pyNone, 1, ⟨true, 0⟩, none⟩], 0⟩).events =
      specSpawnTrace 0 0 StdinSrc.tempFile none
        [⟨["cat"], StreamVal.pipe, StreamVal.pyNone, 1, ⟨true, 0⟩, none⟩,
         ⟨["grep", "World"], StreamVal.pyNone, StreamVal.pipe, 2, ⟨true, 0⟩, none⟩,
         ⟨["tr", "o", "0"], StreamVal.pipe, StreamVal.pyNone, 1, ⟨true, 0⟩, none⟩] ∧
    (pipeline.launch ⟨StreamVal.handle 5, StreamVal.pyNone, StdinSrc.tempFile,
        [⟨["cat"], StreamVal.pipe, StreamVal.pyNone, 1, ⟨true, 0⟩, none⟩,
         ⟨["grep", "World"], StreamVal.pyNone, StreamVal.pipe, 2, ⟨true, 0⟩, none⟩,
         ⟨["tr", "o", "0"], StreamVal.pipe, StreamVal.pyNone, 1, ⟨true, 0⟩, none⟩], 0⟩).events =
      [Event.spawn 0 StdinSrc.tempFile,
       Event.spawn 1 (StdinSrc.fromStdout 0), Event.closeEnd 0 1,
       Event.spawn 2 (StdinSrc.fromStderr 1), Event.closeEnd 1 2] ∧
    (subpipe.append PIPE_STDERR ["grep", "x"] ⟨true, 0⟩).stream = 0 ∧
    (subpipe.runSeq 0 0 StdinSrc.tempFile none
      [subpipe.append PIPE_STDOUT ["cat"] ⟨true, 0⟩,
       subpipe.append PIPE_STDOUT ["tr", "o", "0"] ⟨true, 0⟩]).events =
      subpipe.specStdoutTrace 0 0 StdinSrc.tempFile none
        [subpipe.append PIPE_STDOUT ["cat"] ⟨true, 0⟩,
         subpipe.append PIPE_STDOUT ["tr", "o", "0"] ⟨true, 0⟩] ∧
    (subpipe.runSeq 0 0 StdinSrc.tempFile none
      [subpipe.append PIPE_STDERR_QUIET ["producer"] ⟨true, 0⟩,
       subpipe.append PIPE_STDOUT ["consumer"] ⟨true, 0⟩]).error =
      some subpipe.RunErr.attributeError := by
  refine ⟨(C8_spawn_order.1 _ (by decide) (by decide) (by decide)).1, rfl,
    (C8_spawn_order.2.1 PIPE_STDERR (["grep", "x"]) ⟨true, 0⟩).2, ?_, ?_⟩
  · refine (C8_spawn_order.2.2.1 _ 0 StdinSrc.tempFile (by decide) ?_).1
    intro i ci hi hci
    have hi0 : i = 0 := by
      simp only [List.length_cons, List.length_nil] at hi
      omega
    subst hi0
    simp only [List.getElem?_cons_zero, Option.some.injEq] at hci
    subst hci
    exact ⟨by decide, rfl⟩
  · exact (C8_spawn_order.2.2.2 0 StdinSrc.tempFile
      (subpipe.append PIPE_STDERR_QUIET ["producer"] ⟨true, 0⟩)
      (subpipe.append PIPE_STDOUT ["consumer"] ⟨true, 0⟩) []
      rfl rfl (by decide) (by decide)).2

/-!
C10.  DataSize.parse_size.
-/

/-- When the unit is BITS, the workaround of size.py:128-136 is exactly
ceiling division by 8: divide by 8 and round any remainder up. -/
theorem bitsAdjust_eq_ceilDiv (n : Nat) : size.bitsAdjust size.BITS n = (n + 7) / 8 := by
  unfold size.bitsAdjust
  by_cases hm : n % 8 = 0
  · simp [size.BITS, hm]
    omega
  · simp [size.BITS, hm]
    omega

/-- C10: parse_size returns the integer it stored in the size field; when
the parsed suffix ends in a lowercase b the quantity is interpreted as bits
and converted to bytes by ceiling division by 8; and a suffix that reduces
to a bare capital K is given the binary Ki multiplier 2^10 (not the SI
kilo). -/
theorem C10_parse_size (d : size.DataSize) (s : List Char) (acc pfx : List Char)
    (hscan : size.scanChars s [] false [] = (acc, pfx)) :
    (size.parse_size d s).1 = (size.parse_size d s).2.size ∧
    (pfx.getLast? = some 'b' →
      (size.parse_size d s).1 =
        ((size.pyInt (size.applyMult (size.khack pfx.dropLast)
          (if acc.length > 0 then size.decVal acc else (0, 0))) + 7) / 8 : Nat)) ∧
    ((size.stripUnit pfx).1 = ['K'] →
      (size.parse_size d s).1 =
        (size.bitsAdjust (size.stripUnit pfx).2
          (size.pyInt (size.applyMult (['K', 'i'])
            (if acc.length > 0 then size.decVal acc else (0, 0)))) : Nat)) := by
  unfold size.parse_size
  rw [hscan]
  refine ⟨rfl, ?_, ?_⟩
  · intro hb
    have hsu : size.stripUnit pfx = (pfx.dropLast, size.BITS) := by
      unfold size.stripUnit
      rw [hb]
      simp
    simp only [hsu]
    exact_mod_cast congrArg (fun n : Nat => (n : Int)) (bitsAdjust_eq_ceilDiv _)
  · intro hk
    simp only [hk]
    rw [show size.khack (['K']) = ['K', 'i'] from by decide]

/-- Witness for C10 on the input "10Kb": the scan yields accumulator "10"
and suffix "Kb"; the b marks bits, the bare K becomes Ki, so the result is
the ceiling of 10 * 1024 bits / 8 = 1280 bytes, also stored in the size
field. -/
theorem C10_parse_size_witness :
    (size.parse_size ⟨0⟩ (['1', '0', 'K', 'b'])).1 =
      (size.parse_size ⟨0⟩ (['1', '0', 'K', 'b'])).2.size ∧
    (size.parse_size ⟨0⟩ (['1', '0', 'K', 'b'])).1 = 1280 := by
  have h := C10_parse_size ⟨0⟩ (['1', '0', 'K', 'b']) (['1', '0']) (['K', 'b']) (by decide)
  refine ⟨h.1, ?_⟩
  rw [h.2.1 (by decide)]
  decide

end Teal
